import Mathlib

/-!
Verification of the BSHS_ES weather subsystem.

Two pieces of the repository are modelled here, faithfully to the source:

* the serverless weather proxy `api/weather.js` (`handler`), embedded as a
  pure function from the inbound request, the `WEATHER_API_KEY` environment
  value and the behaviour of the single outbound `fetch` to the HTTP
  response it sends plus the number of outbound calls it issued; and

* the weather-condition keyword scan of the page script, embedded from the
  code fragment the repository quotes in `CURRENT_FLAWS.md` (lines 169-177)
  and in its audit report (`scanCondition`).

JavaScript strings are modelled as `List Char`.  `JSON.parse` and
`JSON.stringify`, which `res.json` and `weatherResponse.json()` rely on, are
modelled by an executable parser (`parseJson`) and serializer (`stringify`)
over a `Json` value type; the parser keeps numerals as their source text and
decodes each `\uXXXX` escape to a single scalar, which is enough for every
statement below.
-/

/-! ## Strings: `startsWith` and `includes` over `List Char` -/

/-- `strStartsWith l n` is true when `n` is a prefix of `l`; it models the
position-by-position comparison that `String.prototype.includes` performs at
each candidate offset. -/
def strStartsWith : List Char → List Char → Bool
  | _, [] => true
  | [], _ :: _ => false
  | a :: as, b :: bs => a == b && strStartsWith as bs

/-- `strIncludes hay needle` models `hay.includes(needle)` on JavaScript
strings: the needle occurs contiguously somewhere in the haystack. -/
def strIncludes : List Char → List Char → Bool
  | [], needle => needle.isEmpty
  | a :: as, needle => strStartsWith (a :: as) needle || strIncludes as needle

/-! ## The condition keyword scan of the page script -/

/-- Icon of the `cloudy` branch: the two-scalar emoji (U+2601 U+FE0F) the
quoted fragment assigns with `icon = ...` in its first branch. -/
def cloudyIcon : List Char := ['☁', '\uFE0F']

/-- Icon of the `partly` branch: the single scalar U+26C5 the quoted
fragment assigns in its second branch. -/
def partlyIcon : List Char := ['⛅']

/-- Result of one branch of the condition chain: the icon and the status
text (`statusText = condition` keeps the original condition text).  The
`suspensionInfo` template strings are elided in the repository quotation
(`...long template...`), so they are not part of the model. -/
structure WeatherInfo where
  icon : List Char
  statusText : List Char
deriving DecidableEq

/-- The weather-condition keyword scan of the page script, as quoted in
`CURRENT_FLAWS.md` lines 169-177 and again in the audit report: the
lower-cased condition text is tested with `includes` against `cloudy`
first, then against `partly`.  The chain continues with further branches
(`... many more similar blocks`) that the repository does not quote, so the
scan returns `none` when neither quoted branch matches.  `Char.toLower` is
the ASCII case mapping, which agrees with `toLowerCase` on the condition
texts in play. -/
def scanCondition (condition : List Char) : Option WeatherInfo :=
  let conditionLower := condition.map Char.toLower
  if strIncludes conditionLower ("cloudy".data) then
    some ⟨cloudyIcon, condition⟩
  else if strIncludes conditionLower ("partly".data) then
    some ⟨partlyIcon, condition⟩
  else
    none

/-! ## JSON values, parsing and serialization -/

/-- JSON values.  Numerals are kept as their source text (`num`), which
leaves them unchanged under re-serialization; object fields keep their
source order, as JavaScript objects do. -/
inductive Json where
  | null
  | bool (b : Bool)
  | num (raw : List Char)
  | str (s : List Char)
  | arr (elems : List Json)
  | obj (fields : List (List Char × Json))

/-- JSON whitespace (RFC 8259: space, tab, line feed, carriage return). -/
def isWsChar (c : Char) : Bool :=
  c == ' ' || c == '\t' || c == '\n' || c == '\r'

/-- Drop leading JSON whitespace. -/
def skipWs : List Char → List Char
  | [] => []
  | c :: rest => if isWsChar c then skipWs rest else c :: rest

/-- Value of a hexadecimal digit. -/
def hexVal (c : Char) : Option Nat :=
  if '0' ≤ c ∧ c ≤ '9' then some (c.toNat - '0'.toNat)
  else if 'a' ≤ c ∧ c ≤ 'f' then some (c.toNat - 'a'.toNat + 10)
  else if 'A' ≤ c ∧ c ≤ 'F' then some (c.toNat - 'A'.toNat + 10)
  else none

/-- Characters that can occur in a JSON numeral; the parser first grabs a
maximal run of these and then validates it against the JSON number
grammar. -/
def numChar (c : Char) : Bool :=
  c.isDigit || c == '-' || c == '+' || c == '.' || c == 'e' || c == 'E'

/-- Drop a leading run of decimal digits. -/
def chompDigits : List Char → List Char
  | [] => []
  | c :: rest => if c.isDigit then chompDigits rest else c :: rest

/-- Require at least one decimal digit, then drop the whole run. -/
def chompDigits1 : List Char → Option (List Char)
  | [] => none
  | c :: rest => if c.isDigit then some (chompDigits rest) else none

/-- Validate a candidate numeral against the JSON number grammar
`-? int frac? exp?` with no leading zeros, exactly as `JSON.parse`
accepts. -/
def validNumber (s : List Char) : Bool :=
  let s1 := match s with
    | '-' :: rest => rest
    | _ => s
  let intRest : Option (List Char) :=
    match s1 with
    | '0' :: rest => some rest
    | c :: rest => if c.isDigit && !(c == '0') then some (chompDigits rest) else none
    | [] => none
  match intRest with
  | none => false
  | some r1 =>
    let fracRest : Option (List Char) :=
      match r1 with
      | '.' :: rest => chompDigits1 rest
      | _ => some r1
    match fracRest with
    | none => false
    | some r2 =>
      let expRest : Option (List Char) :=
        match r2 with
        | e :: rest =>
          if e == 'e' || e == 'E' then
            match rest with
            | sgn :: rest2 =>
              if sgn == '+' || sgn == '-' then chompDigits1 rest2 else chompDigits1 rest
            | [] => none
          else none
        | [] => some []
      match expRest with
      | none => false
      | some r3 => r3.isEmpty

/-- Parse a JSON numeral at the head of the input, keeping its raw text. -/
def parseNumber (input : List Char) : Option (Json × List Char) :=
  let raw := input.takeWhile numChar
  if raw.isEmpty then none
  else if validNumber raw then some (.num raw, input.drop raw.length)
  else none

/-- Parse the body of a JSON string after the opening quote, decoding the
escape sequences `JSON.parse` accepts and rejecting raw control characters;
each `\uXXXX` escape decodes to the single scalar with that code.  The
fuel argument only bounds recursion depth. -/
def parseStringBody : Nat → List Char → Option (List Char × List Char)
  | 0, _ => none
  | _ + 1, [] => none
  | fuel + 1, c :: rest =>
    if c == '"' then some ([], rest)
    else if c == '\\' then
      match rest with
      | [] => none
      | e :: rest2 =>
        let dec : Option (Char × List Char) :=
          if e == '"' then some ('"', rest2)
          else if e == '\\' then some ('\\', rest2)
          else if e == '/' then some ('/', rest2)
          else if e == 'b' then some ('\x08', rest2)
          else if e == 'f' then some ('\x0c', rest2)
          else if e == 'n' then some ('\n', rest2)
          else if e == 'r' then some ('\r', rest2)
          else if e == 't' then some ('\t', rest2)
          else if e == 'u' then
            match rest2 with
            | h1 :: h2 :: h3 :: h4 :: rest3 =>
              match hexVal h1, hexVal h2, hexVal h3, hexVal h4 with
              | some a, some b, some c2, some d =>
                some (Char.ofNat (((a * 16 + b) * 16 + c2) * 16 + d), rest3)
              | _, _, _, _ => none
            | _ => none
          else none
        match dec with
        | none => none
        | some (d, r) =>
          match parseStringBody fuel r with
          | some (s, r2) => some (d :: s, r2)
          | none => none
    else if c.toNat < 32 then none
    else
      match parseStringBody fuel rest with
      | some (s, r2) => some (c :: s, r2)
      | none => none

mutual

/-- Parse one JSON value at the head of the input, returning it with the
unconsumed remainder.  Models the grammar `JSON.parse` accepts. -/
def parseValue : Nat → List Char → Option (Json × List Char)
  | 0, _ => none
  | fuel + 1, input =>
    match skipWs input with
    | [] => none
    | c :: rest =>
      if c == 'n' then
        match rest with
        | 'u' :: 'l' :: 'l' :: r => some (.null, r)
        | _ => none
      else if c == 't' then
        match rest with
        | 'r' :: 'u' :: 'e' :: r => some (.bool true, r)
        | _ => none
      else if c == 'f' then
        match rest with
        | 'a' :: 'l' :: 's' :: 'e' :: r => some (.bool false, r)
        | _ => none
      else if c == '"' then
        match parseStringBody fuel rest with
        | some (s, r) => some (.str s, r)
        | none => none
      else if c == '[' then
        match skipWs rest with
        | ']' :: r => some (.arr [], r)
        | rest2 =>
          match parseElems fuel rest2 with
          | some (xs, r) => some (.arr xs, r)
          | none => none
      else if c == '\x7b' then
        match skipWs rest with
        | '\x7d' :: r => some (.obj [], r)
        | rest2 =>
          match parseFields fuel rest2 with
          | some (fs, r) => some (.obj fs, r)
          | none => none
      else parseNumber (c :: rest)

/-- Parse the comma-separated elements of a non-empty JSON array up to and
including the closing bracket. -/
def parseElems : Nat → List Char → Option (List Json × List Char)
  | 0, _ => none
  | fuel + 1, input =>
    match parseValue fuel input with
    | none => none
    | some (v, rest) =>
      match skipWs rest with
      | ',' :: rest2 =>
        match parseElems fuel rest2 with
        | some (vs, r) => some (v :: vs, r)
        | none => none
      | ']' :: rest2 => some ([v], rest2)
      | _ => none

/-- Parse the comma-separated fields of a non-empty JSON object up to and
including the closing brace. -/
def parseFields : Nat → List Char → Option (List (List Char × Json) × List Char)
  | 0, _ => none
  | fuel + 1, input =>
    match skipWs input with
    | '"' :: rest =>
      match parseStringBody fuel rest with
      | none => none
      | some (k, rest2) =>
        match skipWs rest2 with
        | ':' :: rest3 =>
          match parseValue fuel rest3 with
          | none => none
          | some (v, rest4) =>
            match skipWs rest4 with
            | ',' :: rest5 =>
              match parseFields fuel rest5 with
              | some (fs, r) => some ((k, v) :: fs, r)
              | none => none
            | '\x7d' :: rest5 => some ([(k, v)], rest5)
            | _ => none
        | _ => none
    | _ => none

end

/-- `JSON.parse` on a whole input: one value, possibly surrounded by
whitespace, and nothing else.  The initial fuel `2 * length + 2` exceeds
the recursion depth reachable on the input, since every nested call pair
consumes at least one character. -/
def parseJson (s : List Char) : Option Json :=
  match parseValue (2 * s.length + 2) s with
  | some (j, rest) => if (skipWs rest).isEmpty then some j else none
  | none => none

/-- Lower-case hexadecimal digit of a value below 16, as `JSON.stringify`
emits in `\u00XX` escapes. -/
def hexDigit (n : Nat) : Char :=
  if n < 10 then Char.ofNat ('0'.toNat + n) else Char.ofNat ('a'.toNat + (n - 10))

/-- Escaping of one character inside a serialized JSON string, as
`JSON.stringify` performs it: quote, backslash and the named control
characters get two-character escapes, other control characters get
`\u00XX`, everything else is emitted as itself. -/
def escapeChar (c : Char) : List Char :=
  if c == '"' then ['\\', '"']
  else if c == '\\' then ['\\', '\\']
  else if c == '\x08' then ['\\', 'b']
  else if c == '\x0c' then ['\\', 'f']
  else if c == '\n' then ['\\', 'n']
  else if c == '\r' then ['\\', 'r']
  else if c == '\t' then ['\\', 't']
  else if c.toNat < 32 then
    ['\\', 'u', '0', '0', hexDigit (c.toNat / 16), hexDigit (c.toNat % 16)]
  else [c]

/-- Serialize a string with surrounding quotes and escaping. -/
def quoteString (s : List Char) : List Char :=
  '"' :: (s.map escapeChar).flatten ++ ['"']

mutual

/-- `JSON.stringify` (no indentation argument): the compact serialization
with no whitespace, fields and elements in order. -/
def stringify : Json → List Char
  | .null => "null".data
  | .bool true => "true".data
  | .bool false => "false".data
  | .num raw => raw
  | .str s => quoteString s
  | .arr xs => '[' :: stringifyElems xs ++ [']']
  | .obj fs => '\x7b' :: stringifyFields fs ++ ['\x7d']

/-- Comma-separated serialization of array elements. -/
def stringifyElems : List Json → List Char
  | [] => []
  | [x] => stringify x
  | x :: y :: rest => stringify x ++ ',' :: stringifyElems (y :: rest)

/-- Comma-separated serialization of object fields. -/
def stringifyFields : List (List Char × Json) → List Char
  | [] => []
  | [(k, v)] => quoteString k ++ ':' :: stringify v
  | (k, v) :: f :: rest =>
      quoteString k ++ ':' :: stringify v ++ ',' :: stringifyFields (f :: rest)

end

/-! ## The proxy handler `api/weather.js` -/

/-- The inbound request, of which the handler inspects only the method. -/
structure Request where
  method : String
deriving DecidableEq

/-- The HTTP response the handler sends: status, headers in the order they
were set, and the body (`none` for `res.end()` with no body, otherwise the
exact text `res.json` writes). -/
structure Response where
  status : Nat
  headers : List (String × String)
  body : Option (List Char)
deriving DecidableEq

/-- Behaviour of the single outbound `fetch` to the upstream weather API:
either the returned promise rejects (network failure), or a response
arrives with a status code and a body text.  Reading the body text
(`.text()`/the raw bytes of `.json()`) is taken to succeed. -/
inductive Upstream where
  | fetchFailure
  | response (status : Nat) (body : List Char)
deriving DecidableEq

/-- `res.setHeader`: replace the value of an existing header, otherwise
append the header. -/
def setHeader (hs : List (String × String)) (k v : String) : List (String × String) :=
  if hs.any (fun p => p.1 == k) then
    hs.map (fun p => if p.1 == k then (k, v) else p)
  else hs ++ [(k, v)]

/-- The three CORS headers the handler sets first, before any branching. -/
def baseHeaders : List (String × String) :=
  setHeader (setHeader (setHeader []
    "Access-Control-Allow-Origin" "https://bshs-es.vercel.app")
    "Access-Control-Allow-Methods" "GET, OPTIONS")
    "Access-Control-Allow-Headers" "Content-Type"

/-- JavaScript truthiness of `process.env.WEATHER_API_KEY` as used in
`if (!apiKey)`: the variable is either unset (`undefined`) or a string,
and the only falsy string is the empty one. -/
def isFalsyKey : Option String → Bool
  | none => true
  | some s => s == ""

/-- Body of the 405 response (`res.json` of the object literal at
`api/weather.js` lines 17-20). -/
def json405 : Json :=
  .obj [("error".data, .str "Method not allowed".data),
        ("message".data, .str "Only GET requests are supported".data)]

/-- Body of the missing-key 500 response (`api/weather.js` lines 28-31). -/
def jsonNotConfigured : Json :=
  .obj [("error".data, .str "Server configuration error".data),
        ("message".data, .str "Weather service is not properly configured".data)]

/-- Body of the relayed upstream-error response (`api/weather.js` lines
54-58); only the numeric status of the upstream response flows in. -/
def jsonUpstreamError (status : Nat) : Json :=
  .obj [("error".data, .str "Weather API error".data),
        ("message".data, .str "Unable to fetch weather data from provider".data),
        ("status".data, .num (Nat.repr status).data)]

/-- Body of the catch-block 500 response (`api/weather.js` lines 80-83). -/
def jsonUnavailable : Json :=
  .obj [("error".data, .str "Failed to fetch weather data".data),
        ("message".data, .str "The weather service is temporarily unavailable. Please try again later.".data)]

/-- Value of the `Cache-Control` header set on the success path
(`api/weather.js` line 66). -/
def cacheControlValue : String :=
  "public, s-maxage=300, stale-while-revalidate=600"

/-- The proxy handler of `api/weather.js`, branch for branch: CORS headers
first; `OPTIONS` preflight short-circuit; 405 for any other non-`GET`
method; 500 when the key is falsy; then the one outbound fetch, whose
outcome `upstream` describes.  A non-2xx upstream status (`!response.ok`,
with `ok` meaning 200-299) relays that status with the generic body; an
upstream body `JSON.parse` rejects throws inside the `try`, landing in the
catch block like a network failure; otherwise the parsed data is
re-serialized by `res.json` with the cache header attached.  The second
component counts outbound fetch calls (0 or 1). -/
def handler (req : Request) (envWeatherApiKey : Option String)
    (upstream : Upstream) : Response × Nat :=
  if req.method == "OPTIONS" then
    (⟨200, baseHeaders, none⟩, 0)
  else if !(req.method == "GET") then
    (⟨405, baseHeaders, some (stringify json405)⟩, 0)
  else if isFalsyKey envWeatherApiKey then
    (⟨500, baseHeaders, some (stringify jsonNotConfigured)⟩, 0)
  else
    match upstream with
    | .fetchFailure =>
      (⟨500, baseHeaders, some (stringify jsonUnavailable)⟩, 1)
    | .response upStatus upBody =>
      if ¬(200 ≤ upStatus ∧ upStatus ≤ 299) then
        (⟨upStatus, baseHeaders, some (stringify (jsonUpstreamError upStatus))⟩, 1)
      else
        match parseJson upBody with
        | none =>
          (⟨500, baseHeaders, some (stringify jsonUnavailable)⟩, 1)
        | some data =>
          (⟨200, setHeader baseHeaders "Cache-Control" cacheControlValue,
            some (stringify data)⟩, 1)

/-- An upstream forecast body that is valid JSON but not in compact form:
the whitespace after the colons is what `JSON.parse` followed by
`JSON.stringify` discards. -/
def spacedForecastBody : List Char :=
  "\x7b\"current\": \x7b\"temp_c\": 30, \"condition\": \x7b\"text\": \"Partly cloudy\"\x7d\x7d\x7d".data

/-- The compact re-serialization of `spacedForecastBody`. -/
def compactForecastBody : List Char :=
  "\x7b\"current\":\x7b\"temp_c\":30,\"condition\":\x7b\"text\":\"Partly cloudy\"\x7d\x7d\x7d".data

/-! ## Facts about `strIncludes` -/

/-- `strStartsWith` decides the prefix relation. -/
theorem strStartsWith_iff (l n : List Char) : strStartsWith l n = true ↔ n <+: l := by
  induction l generalizing n with
  | nil =>
    cases n with
    | nil => simp [strStartsWith]
    | cons b bs => simp [strStartsWith]
  | cons a as ih =>
    cases n with
    | nil => simp [strStartsWith]
    | cons b bs =>
      simp only [strStartsWith, Bool.and_eq_true, beq_iff_eq, ih, List.cons_prefix_cons]
      exact ⟨fun h => ⟨h.1.symm, h.2⟩, fun h => ⟨h.1.symm, h.2⟩⟩

/-- `strIncludes` decides the contiguous-substring (infix) relation. -/
theorem strIncludes_iff (l n : List Char) : strIncludes l n = true ↔ n <:+: l := by
  induction l with
  | nil =>
    cases n with
    | nil => simp [strIncludes]
    | cons b bs => simp [strIncludes]
  | cons a as ih =>
    rw [List.infix_cons_iff]
    simp only [strIncludes, Bool.or_eq_true, strStartsWith_iff, ih]

/-- A haystack that includes a needle also includes every contiguous
substring of that needle. -/
theorem strIncludes_of_infix {s n m : List Char} (hmn : m <:+: n)
    (h : strIncludes s n = true) : strIncludes s m = true := by
  rw [strIncludes_iff] at h ⊢
  exact hmn.trans h

/-! ## C1: which mapping the keyword scan selects on `partly cloudy` -/

/-- C1 counterexample: at the condition text `Partly cloudy` — which
contains the substring `partly cloudy` after lower-casing — the keyword
scan quoted in `CURRENT_FLAWS.md` selects the `cloudy` mapping (icon
U+2601 U+FE0F), not the `partly` mapping (icon U+26C5), because `cloudy`
is the first matching entry in declared order.  This refutes the claim
that the `partly cloudy` mapping wins on such texts. -/
theorem partlyCloudy_selects_partly_mapping_refuted :
    strIncludes (("Partly cloudy".data).map Char.toLower) ("partly cloudy".data) = true ∧
    scanCondition ("Partly cloudy".data) ≠ some ⟨partlyIcon, "Partly cloudy".data⟩ ∧
    scanCondition ("Partly cloudy".data) = some ⟨cloudyIcon, "Partly cloudy".data⟩ := by
  refine ⟨by decide, by decide, by decide⟩

/-- C1 (amended): for every condition text that contains the substring
`partly cloudy` after lower-casing, the keyword scan selects the `cloudy`
mapping — the first matching entry in declared order — since such a text
also contains the substring `cloudy`, which is tested first. -/
theorem partlyCloudy_condition_selects_cloudy_mapping (condition : List Char)
    (h : strIncludes (condition.map Char.toLower) ("partly cloudy".data) = true) :
    scanCondition condition = some ⟨cloudyIcon, condition⟩ := by
  have hsub : ("cloudy".data : List Char) <:+: ("partly cloudy".data) :=
    (strIncludes_iff ("partly cloudy".data) ("cloudy".data)).mp (by decide)
  have hc : strIncludes (condition.map Char.toLower) ("cloudy".data) = true :=
    strIncludes_of_infix hsub h
  unfold scanCondition
  simp [hc]

/-- C1 witness: the amended theorem applied at the concrete condition text
`Partly cloudy`. -/
theorem partlyCloudy_condition_selects_cloudy_mapping_witness :
    scanCondition ("Partly cloudy".data) = some ⟨cloudyIcon, "Partly cloudy".data⟩ :=
  partlyCloudy_condition_selects_cloudy_mapping ("Partly cloudy".data) (by decide)

/-! ## C2-C10: the proxy handler -/

/-- C3: on a `GET` request with the `WEATHER_API_KEY` environment variable
unset, the handler returns 500 with the generic not-configured body and
issues zero outbound calls to the upstream weather API. -/
theorem missing_key_returns_500_without_upstream_call (up : Upstream) :
    handler ⟨"GET"⟩ none up =
      (⟨500, baseHeaders, some (stringify jsonNotConfigured)⟩, 0) := rfl

/-- C7: an `OPTIONS` request is answered 200 with no body for every
configuration and every upstream behaviour — in particular also when the
secret is absent, since the preflight branch runs before the credential is
read — and issues zero outbound calls. -/
theorem options_returns_200_empty_for_all_configs (key : Option String) (up : Upstream) :
    handler ⟨"OPTIONS"⟩ key up = (⟨200, baseHeaders, none⟩, 0) := rfl

/-- C9: an empty-string `WEATHER_API_KEY` is falsy in `if (!apiKey)` and is
treated exactly as an absent one: the handler behaves identically on every
request and upstream behaviour, and on `GET` it returns the 500
not-configured response with zero outbound calls instead of forwarding an
empty key. -/
theorem empty_key_treated_as_absent (req : Request) (up : Upstream) :
    handler req (some "") up = handler req none up ∧
    handler ⟨"GET"⟩ (some "") up =
      (⟨500, baseHeaders, some (stringify jsonNotConfigured)⟩, 0) :=
  ⟨rfl, rfl⟩

/-- C6: a request whose method is neither `GET` nor `OPTIONS` is answered
405 with the structured generic body and zero outbound calls. -/
theorem non_get_non_options_returns_405_without_upstream_call
    (m : String) (key : Option String) (up : Upstream)
    (h1 : m ≠ "OPTIONS") (h2 : m ≠ "GET") :
    handler ⟨m⟩ key up = (⟨405, baseHeaders, some (stringify json405)⟩, 0) := by
  have e1 : (m == "OPTIONS") = false := beq_eq_false_iff_ne.mpr h1
  have e2 : (m == "GET") = false := beq_eq_false_iff_ne.mpr h2
  simp [handler, e1, e2]

/-- C6 witness: the 405 theorem applied at the concrete method `POST`. -/
theorem non_get_non_options_returns_405_without_upstream_call_witness :
    handler ⟨"POST"⟩ none .fetchFailure =
      (⟨405, baseHeaders, some (stringify json405)⟩, 0) :=
  non_get_non_options_returns_405_without_upstream_call "POST" none .fetchFailure
    (by decide) (by decide)

/-- C4: when the key is configured and the upstream fetch completes with a
non-2xx status (`!weatherResponse.ok`), the handler relays that same
status code with the fixed generic `error`/`message`/`status` body; the
upstream body text `upBody` does not occur in the response, so the raw
upstream error text never reaches the client. -/
theorem upstream_error_relays_status_with_generic_body
    (key : String) (upStatus : Nat) (upBody : List Char)
    (hkey : key ≠ "") (hok : ¬(200 ≤ upStatus ∧ upStatus ≤ 299)) :
    handler ⟨"GET"⟩ (some key) (.response upStatus upBody) =
      (⟨upStatus, baseHeaders, some (stringify (jsonUpstreamError upStatus))⟩, 1) := by
  have e1 : isFalsyKey (some key) = false := by simp [isFalsyKey, hkey]
  simp [handler, e1, hok]

/-- C4 witness: the relay theorem applied at a concrete 403 upstream
response whose body is the raw provider error text `denied`. -/
theorem upstream_error_relays_status_with_generic_body_witness :
    handler ⟨"GET"⟩ (some "k") (.response 403 ("denied".data)) =
      (⟨403, baseHeaders, some (stringify (jsonUpstreamError 403))⟩, 1) :=
  upstream_error_relays_status_with_generic_body "k" 403 ("denied".data)
    (by decide) (by decide)

/-- C8: with the key configured, both failure modes of the `try` block — a
rejected outbound fetch, and a 2xx upstream response whose body
`JSON.parse` rejects — land in the catch block, which returns 500 with the
fixed generic temporarily-unavailable body carrying no detail of the
underlying error. -/
theorem network_or_parse_failure_returns_500_generic
    (key : String) (upStatus : Nat) (upBody : List Char)
    (hkey : key ≠ "") (hok : 200 ≤ upStatus ∧ upStatus ≤ 299)
    (hp : parseJson upBody = none) :
    handler ⟨"GET"⟩ (some key) .fetchFailure =
      (⟨500, baseHeaders, some (stringify jsonUnavailable)⟩, 1) ∧
    handler ⟨"GET"⟩ (some key) (.response upStatus upBody) =
      (⟨500, baseHeaders, some (stringify jsonUnavailable)⟩, 1) := by
  have e1 : isFalsyKey (some key) = false := by simp [isFalsyKey, hkey]
  constructor
  · simp [handler, e1]
  · simp [handler, e1, hok.1, hok.2, hp]

/-- C8 witness: the failure theorem applied at the concrete key `k`,
upstream status 200 and the non-JSON upstream body `oops`. -/
theorem network_or_parse_failure_returns_500_generic_witness :
    handler ⟨"GET"⟩ (some "k") .fetchFailure =
      (⟨500, baseHeaders, some (stringify jsonUnavailable)⟩, 1) ∧
    handler ⟨"GET"⟩ (some "k") (.response 200 ("oops".data)) =
      (⟨500, baseHeaders, some (stringify jsonUnavailable)⟩, 1) :=
  network_or_parse_failure_returns_500_generic "k" 200 ("oops".data)
    (by decide) (by decide) rfl

/-- C5: two executions that differ only in the value of the configured
secret (both non-empty) produce identical responses and identical call
counts on every path: the secret value never flows into anything the
client sees. -/
theorem response_independent_of_secret_value (req : Request) (k1 k2 : String)
    (up : Upstream) (h1 : k1 ≠ "") (h2 : k2 ≠ "") :
    handler req (some k1) up = handler req (some k2) up := by
  have e1 : isFalsyKey (some k1) = false := by simp [isFalsyKey, h1]
  have e2 : isFalsyKey (some k2) = false := by simp [isFalsyKey, h2]
  simp only [handler, e1, e2]

/-- C5 witness: the noninterference theorem applied at the concrete secrets
`key-one` and `key-two` on a `GET` request with a failing fetch. -/
theorem response_independent_of_secret_value_witness :
    handler ⟨"GET"⟩ (some "key-one") .fetchFailure =
      handler ⟨"GET"⟩ (some "key-two") .fetchFailure :=
  response_independent_of_secret_value ⟨"GET"⟩ "key-one" "key-two" .fetchFailure
    (by decide) (by decide)

/-- C2 counterexample: for the upstream 200 response whose body is the
valid forecast JSON `spacedForecastBody` (not in compact form), the
handler answers 200 but its body is the compact re-serialization
`compactForecastBody`, which is not byte-for-byte the upstream body —
because the code runs `weatherResponse.json()` and then `res.json(data)`,
a parse followed by a re-serialization, rather than relaying the bytes.
This refutes the byte-for-byte-verbatim part of the claim. -/
theorem success_body_verbatim_refuted :
    (handler ⟨"GET"⟩ (some "k") (.response 200 spacedForecastBody)).1.status = 200 ∧
    (handler ⟨"GET"⟩ (some "k") (.response 200 spacedForecastBody)).1.body =
      some compactForecastBody ∧
    some compactForecastBody ≠ some spacedForecastBody := by
  refine ⟨rfl, rfl, by decide⟩

/-- C2 (amended): when the key is configured and the upstream fetch
returns status 200 with a body that parses as JSON, the handler responds
200, attaches `Cache-Control: public, s-maxage=300,
stale-while-revalidate=600` after the three CORS headers, and sends as
body the serialization of the parsed upstream JSON — the same JSON value
as the upstream body, byte-for-byte identical to it exactly when that
body is already in compact serialized form. -/
theorem success_returns_reserialized_body_with_cache_header
    (key : String) (upBody : List Char) (j : Json)
    (hkey : key ≠ "") (hp : parseJson upBody = some j) :
    handler ⟨"GET"⟩ (some key) (.response 200 upBody) =
      (⟨200,
        [("Access-Control-Allow-Origin", "https://bshs-es.vercel.app"),
         ("Access-Control-Allow-Methods", "GET, OPTIONS"),
         ("Access-Control-Allow-Headers", "Content-Type"),
         ("Cache-Control", "public, s-maxage=300, stale-while-revalidate=600")],
        some (stringify j)⟩, 1) := by
  have e1 : isFalsyKey (some key) = false := by simp [isFalsyKey, hkey]
  simp [handler, e1, hp, setHeader, baseHeaders, cacheControlValue]

/-- C2 witness: the amended success theorem applied at the concrete key
`k` and the compact upstream body consisting of the empty JSON object. -/
theorem success_returns_reserialized_body_with_cache_header_witness :
    handler ⟨"GET"⟩ (some "k") (.response 200 ("\x7b\x7d".data)) =
      (⟨200,
        [("Access-Control-Allow-Origin", "https://bshs-es.vercel.app"),
         ("Access-Control-Allow-Methods", "GET, OPTIONS"),
         ("Access-Control-Allow-Headers", "Content-Type"),
         ("Cache-Control", "public, s-maxage=300, stale-while-revalidate=600")],
        some (stringify (Json.obj []))⟩, 1) :=
  success_returns_reserialized_body_with_cache_header "k" ("\x7b\x7d".data)
    (Json.obj []) (by decide) rfl

/-- C10: every response the handler produces — preflight 200, 405, both
500 paths, the relayed upstream error and the 200 success — carries the
three CORS headers set before any branching, with their fixed values. -/
theorem all_responses_carry_cors_headers (req : Request) (key : Option String)
    (up : Upstream) :
    ("Access-Control-Allow-Origin", "https://bshs-es.vercel.app")
      ∈ (handler req key up).1.headers ∧
    ("Access-Control-Allow-Methods", "GET, OPTIONS")
      ∈ (handler req key up).1.headers ∧
    ("Access-Control-Allow-Headers", "Content-Type")
      ∈ (handler req key up).1.headers := by
  have hsub : ∀ p : String × String, p ∈ baseHeaders → p ∈ (handler req key up).1.headers := by
    intro p hp
    have hcache : p ∈ setHeader baseHeaders "Cache-Control" cacheControlValue := by
      have hs : setHeader baseHeaders "Cache-Control" cacheControlValue =
          baseHeaders ++ [("Cache-Control", cacheControlValue)] := rfl
      rw [hs]
      exact List.mem_append_left _ hp
    unfold handler
    rcases up with _ | ⟨s, b⟩
    · split
      · exact hp
      · split
        · exact hp
        · split
          · exact hp
          · exact hp
    · split
      · exact hp
      · split
        · exact hp
        · split
          · exact hp
          · dsimp only
            split
            · exact hp
            · split
              · exact hp
              · exact hcache
  exact ⟨hsub _ (by decide), hsub _ (by decide), hsub _ (by decide)⟩
